import Mathlib

/-!
Verification of the level-crossing alert bot (`src/main.py`).

The embedding models prices as rationals (Python floats carry out exact
decimal arithmetic on all the small inputs considered here), the global
`last_level_alert` dict as an insertion-ordered association list, Python
exceptions as `Except Unit`, and the network as an explicit oracle value
passed to the fetch/send functions.
-/

attribute [local semireducible] Rat.add Rat.mul Rat.inv Rat.sub

namespace UpstoxBot

/-- Python's `round` on a rational: round half to even (banker's rounding),
the tie-breaking rule of CPython's built-in `round`. -/
def roundHalfEven (q : ℚ) : ℤ :=
  if q - (⌊q⌋ : ℚ) < 1/2 then ⌊q⌋
  else if (1:ℚ)/2 < q - (⌊q⌋ : ℚ) then ⌊q⌋ + 1
  else if ⌊q⌋ % 2 = 0 then ⌊q⌋ else ⌊q⌋ + 1

/-- Python's `int()` applied to a real value: truncation toward zero. -/
def ratTruncZ (q : ℚ) : ℤ :=
  if 0 ≤ q then ⌊q⌋ else ⌈q⌉

/-- The exact grid value `round(ltp / step) * step` from line 114 of
`main.py`, before the `int()` truncation is applied. -/
def gridValue (step ltp : ℚ) : ℚ :=
  ((roundHalfEven (ltp / step) : ℤ) : ℚ) * step

/-- `int(round(ltp / LEVEL_STEP_POINTS) * LEVEL_STEP_POINTS)` (main.py:114). -/
def computeLevel (step ltp : ℚ) : ℤ :=
  ratTruncZ (gridValue step ltp)

/-- The `last_level_alert` dict: symbol -> last alerted level, kept in
insertion order like a Python dict. -/
abbrev TrackerState := List (String × ℤ)

/-- `last_level_alert.get(symbol)` (main.py:115). -/
def lookupLevel : TrackerState → String → Option ℤ
  | [], _ => Option.none
  | (k, v) :: rest, s => if k = s then some v else lookupLevel rest s

/-- `last_level_alert[symbol] = level`: Python dict assignment, replacing in
place when the key exists and appending otherwise. -/
def setLevel : TrackerState → String → ℤ → TrackerState
  | [], s, v => [(s, v)]
  | (k, w) :: rest, s, v =>
      if k = s then (k, v) :: rest else (k, w) :: setLevel rest s v

/-- `process_tick` (main.py:107-127), restricted to its observable effects on
the tracker state: returns the new state and `some level` exactly when the
alert branch fires (print + telegram message on lines 119-127). -/
def process_tick (step : ℚ) (st : TrackerState) (symbol : String) (ltp : ℚ) :
    TrackerState × Option ℤ :=
  let level := computeLevel step ltp
  if lookupLevel st symbol ≠ some level then
    (setLevel st symbol level, some level)
  else
    (st, Option.none)

/-- Feed a sequence of prices for one symbol through `process_tick`,
collecting the alert signal of each call. -/
def runTicks (step : ℚ) (st : TrackerState) (s : String) :
    List ℚ → TrackerState × List (Option ℤ)
  | [] => (st, [])
  | p :: ps =>
      let r := process_tick step st s p
      let rest := runTicks step r.1 s ps
      (rest.1, r.2 :: rest.2)

/-! ## The poll-loop cycle (`main_bot`, main.py:140-159)

A quote object's price fields may hold a Python value whose `float()`
conversion raises; depth entries may be non-dict objects on which
`.get("quantity", 0)` raises `AttributeError`.  Exceptions are `Except Unit`.
-/

/-- A value found under `last_price` / `ltp` in a quote dict: either a
number (falsy exactly when zero), or a non-numeric truthy object on which
`float()` raises. -/
inductive PriceVal where
  | pnum (q : ℚ)
  | bad
deriving DecidableEq

/-- One element of `depth["buy"]`: either a dict whose `"quantity"` key may
be absent (defaulted to 0 by `x.get("quantity", 0)`), or a malformed
non-dict entry on which the `.get` attribute access raises. -/
inductive Entry where
  | ok (quantity : Option ℚ)
  | bad
deriving DecidableEq

/-- A quote object for one symbol.  `truthy` is the Python truthiness of the
dict (`False` exactly for the empty dict), tested by `if not q` on
main.py:145. -/
structure Quote where
  truthy : Bool
  last_price : Option PriceVal
  ltp : Option PriceVal
  buy : List Entry
deriving DecidableEq

/-- Python truthiness of a `dict.get` result on the price fields:
`None` (absent key) and `0`/`0.0` are falsy, everything else is truthy. -/
def truthyPrice : Option PriceVal → Bool
  | Option.none => false
  | some (PriceVal.pnum q) => if q = 0 then false else true
  | some PriceVal.bad => true

/-- Python `a or b`: returns `a` when `a` is truthy, else `b`
(`q.get("last_price") or q.get("ltp")`, main.py:149). -/
def pyOr (a b : Option PriceVal) : Option PriceVal :=
  if truthyPrice a then a else b

/-- `sum(x.get("quantity", 0) for x in buy_side)` (main.py:152); raises at
the first malformed entry. -/
def sumQuantities : List Entry → Except Unit ℚ
  | [] => Except.ok 0
  | Entry.bad :: _ => Except.error ()
  | Entry.ok q :: rest =>
      match sumQuantities rest with
      | Except.error e => Except.error e
      | Except.ok s => Except.ok (q.getD 0 + s)

/-- `float(ltp)` (main.py:155): raises on a non-numeric value. -/
def floatOf : PriceVal → Except Unit ℚ
  | PriceVal.pnum q => Except.ok q
  | PriceVal.bad => Except.error ()

/-- `quotes.get(k)` on the batch dict returned by `fetch_quotes`. -/
def qget : List (String × Quote) → String → Option Quote
  | [], _ => Option.none
  | (k, q) :: rest, s => if k = s then some q else qget rest s

/-- The body of the per-symbol `for` loop (main.py:143-155) for one symbol,
given the result of `quotes.get(k)`: skip falsy quotes, extract the price
with the `or` fallback, sum the depth quantities, and call `process_tick`
when the extracted price is not `None`.  An exception anywhere in the body
propagates (`Except.error`). -/
def handleQuote (step : ℚ) (st : TrackerState) (k : String) :
    Option Quote → Except Unit (TrackerState × Option ℤ)
  | Option.none => Except.ok (st, Option.none)
  | some q =>
      if q.truthy = false then Except.ok (st, Option.none)
      else
        let ltpv := pyOr q.last_price q.ltp
        match sumQuantities q.buy with
        | Except.error e => Except.error e
        | Except.ok _buy_qty =>
          match ltpv with
          | Option.none => Except.ok (st, Option.none)
          | some v =>
            match floatOf v with
            | Except.error e => Except.error e
            | Except.ok p => Except.ok (process_tick step st k p)

/-- Result of one poll cycle: final tracker state, the alerts emitted in
order, and whether the cycle was cut short by an exception reaching the
`except` clause on main.py:156. -/
structure CycleResult where
  state : TrackerState
  emitted : List (String × ℤ)
  aborted : Bool
deriving DecidableEq

/-- One cycle of the `while True` loop (main.py:140-159) over the configured
symbol list: symbols are handled in order inside a single `try`, so the
first exception abandons the rest of the cycle (keeping the state mutations
already made) and is swallowed at the cycle boundary. -/
def runCycle (step : ℚ) (qm : List (String × Quote)) (st : TrackerState) :
    List String → CycleResult
  | [] => ⟨st, [], false⟩
  | k :: ks =>
      match handleQuote step st k (qget qm k) with
      | Except.error _ => ⟨st, [], true⟩
      | Except.ok (st', sig) =>
          let r := runCycle step qm st' ks
          ⟨r.state,
           (match sig with
            | some l => [(k, l)]
            | Option.none => []) ++ r.emitted,
           r.aborted⟩

/-! ## Quote Source fetch and Notifier send (`fetch_quotes`, `send_telegram`) -/

/-- Body of a response: undecodable JSON, or a decoded object with its
`status` field ("success" or not) and its `data` mapping. -/
inductive RespBody where
  | badJson
  | json (isSuccess : Bool) (data : List (String × Quote))
deriving DecidableEq

/-- Outcome of the single `requests.get` of a cycle: either the call raised
(connection error, timeout), or it returned a status code and a body. -/
inductive HttpOutcome where
  | exn
  | resp (status : Nat) (body : RespBody)
deriving DecidableEq

/-- Python truthiness of an optional string config value: unset (`None`) and
the empty string are falsy. -/
def truthyStr : Option String → Bool
  | Option.none => false
  | some s => if s = "" then false else true

/-- Observable outcome of `fetch_quotes` (main.py:63-101): the returned
dict, whether an HTTP request was issued at all, and whether the
invalid-token alert of main.py:88 was handed to `send_telegram`. -/
structure FetchOut where
  data : List (String × Quote)
  requested : Bool
  tokenAlertSent : Bool
deriving DecidableEq

/-- `fetch_quotes` (main.py:63-101) as a function of the configured access
token and the network's behavior on this cycle's single request. -/
def fetch_quotes (token : Option String) (net : HttpOutcome) : FetchOut :=
  if truthyStr token = false then ⟨[], false, false⟩
  else
    match net with
    | HttpOutcome.exn => ⟨[], true, false⟩
    | HttpOutcome.resp status body =>
        if status = 401 then ⟨[], true, true⟩
        else
          match body with
          | RespBody.badJson => ⟨[], true, false⟩
          | RespBody.json ok d => if ok then ⟨d, true, false⟩ else ⟨[], true, false⟩

/-- Count how many times repeated cycles with the given network outcomes
hand the invalid-token alert to `send_telegram`. -/
def tokenAlertCount (token : Option String) (nets : List HttpOutcome) : ℕ :=
  nets.foldl (fun n net => n + if (fetch_quotes token net).tokenAlertSent then 1 else 0) 0

/-- Observable outcome of `send_telegram` (main.py:45-57): skipped because
the Notifier is not configured, posted to the chat, or attempted and the
network error swallowed (logged only). -/
inductive SendOutcome where
  | skipped
  | posted (chatId : Option String) (msg : String)
  | failLogged (chatId : Option String) (msg : String)
deriving DecidableEq

/-- `send_telegram` (main.py:45-57) as a function of the configured bot
token and chat id and of whether the `requests.post` call raises. -/
def send_telegram (botToken chatId : Option String) (msg : String)
    (postRaises : Bool) : SendOutcome :=
  if truthyStr botToken = false ∨ truthyStr chatId = false then
    SendOutcome.skipped
  else if postRaises then SendOutcome.failLogged chatId msg
  else SendOutcome.posted chatId msg

/-! ## Helper lemmas -/

theorem lookupLevel_setLevel_self (st : TrackerState) (s : String) (v : ℤ) :
    lookupLevel (setLevel st s v) s = some v := by
  induction st with
  | nil => simp [setLevel, lookupLevel]
  | cons hd tl ih =>
      obtain ⟨k, w⟩ := hd
      by_cases hk : k = s
      · simp [setLevel, lookupLevel, hk]
      · simp [setLevel, lookupLevel, hk, ih]

theorem ratTruncZ_intCast (m : ℤ) : ratTruncZ ((m : ℚ)) = m := by
  unfold ratTruncZ
  split
  · exact Int.floor_intCast m
  · exact Int.ceil_intCast m

/-! ## Claim theorems -/

/-- C1: for every symbol and every valid (positive) price, `process_tick`
emits an alert signal if and only if the newly computed quantized level
differs from the stored last level for that symbol; an absent entry counts
as unequal to every level, so the first valid observation always emits. -/
theorem tick_signal_iff (step : ℚ) (st : TrackerState) (s : String) (p : ℚ)
    (hp : 0 < p) :
    ((process_tick step st s p).2 ≠ Option.none ↔
      lookupLevel st s ≠ some (computeLevel step p))
    ∧ (lookupLevel st s = Option.none →
        (process_tick step st s p).2 = some (computeLevel step p)) := by
  constructor
  · unfold process_tick
    by_cases h : lookupLevel st s = some (computeLevel step p)
    · simp [h]
    · simp [h]
  · intro h0
    unfold process_tick
    simp [h0]

/-- C1 witness at step 50, fresh state, symbol "X", price 24. -/
theorem tick_signal_iff_witness :
    (0:ℚ) < 24 ∧
    ((((process_tick 50 [] "X" 24).2 ≠ Option.none ↔
        lookupLevel [] "X" ≠ some (computeLevel 50 24))
      ∧ (lookupLevel [] "X" = Option.none →
          (process_tick 50 [] "X" 24).2 = some (computeLevel 50 24)))) :=
  ⟨by decide, tick_signal_iff 50 [] "X" 24 (by decide)⟩

/-- C5: evaluating the same price twice consecutively for the same symbol
never emits on the second call. -/
theorem tick_idempotent (step : ℚ) (st : TrackerState) (s : String) (p : ℚ) :
    (process_tick step (process_tick step st s p).1 s p).2 = Option.none := by
  unfold process_tick
  by_cases h : lookupLevel st s = some (computeLevel step p)
  · simp [h]
  · simp [h, lookupLevel_setLevel_self]

/-- C6: with step 50, the price sequence [24, 76, 77, 24] for one symbol
emits on exactly the first, second and fourth evaluations, with levels
0, 100 and 0 (price 77 re-quantizes to the duplicate level 100). -/
theorem scenario_24_76_77_24 :
    (runTicks 50 [] "X" [24, 76, 77, 24]).2
      = [some 0, some 100, Option.none, some 0] := by decide

/-- C7: when the newly computed level equals the stored one, `process_tick`
returns no signal and leaves the whole tracker state map unchanged. -/
theorem tick_frame (step : ℚ) (st : TrackerState) (s : String) (p : ℚ)
    (h : lookupLevel st s = some (computeLevel step p)) :
    process_tick step st s p = (st, Option.none) := by
  unfold process_tick
  simp [h]

/-- C7 witness: a state already holding level 0 for "X" is returned intact
on price 24 (level 0 again). -/
theorem tick_frame_witness :
    lookupLevel [("X", 0)] "X" = some (computeLevel 50 24) ∧
    process_tick 50 [("X", 0)] "X" 24 = ([("X", 0)], Option.none) :=
  ⟨by decide, tick_frame 50 [("X", 0)] "X" 24 (by decide)⟩

/-- C4 counterexample: with the non-integer step 1/2 and price 7/10, the
code's level (0, after `int()` truncation) is NOT `round(price/step)*step`
(which is 1/2): the claimed formula fails as stated for an arbitrary
strictly positive step. -/
theorem level_formula_fails_fractional_step :
    (computeLevel (1/2) (7/10) : ℚ)
      ≠ ((roundHalfEven ((7/10) / (1/2)) : ℤ) : ℚ) * (1/2) := by decide

/-- C4 amended: for a strictly positive integer grid step (the step is read
from configuration as a whole number of points, default 50) the computed
level equals `round(price/step)*step` exactly, with round-half-to-even as
the single deterministic tie-breaking rule (ties always land on an even
multiple of the step); the computation is a pure function of the inputs, so
two runs over the same price sequence produce identical levels. -/
theorem computeLevel_int_step (z : ℤ) (p : ℚ) (hz : 0 < z) (hp : 0 < p) :
    computeLevel (z : ℚ) p = roundHalfEven (p / (z : ℚ)) * z
    ∧ ∀ k : ℤ, roundHalfEven ((k : ℚ) + 1/2) % 2 = 0 := by
  constructor
  · unfold computeLevel gridValue
    have hcast : ((roundHalfEven (p / (z : ℚ)) : ℤ) : ℚ) * (z : ℚ)
        = ((roundHalfEven (p / (z : ℚ)) * z : ℤ) : ℚ) := by push_cast; ring
    rw [hcast, ratTruncZ_intCast]
  · intro k
    have hfl : ⌊(k : ℚ) + 1/2⌋ = k := by
      rw [add_comm, Int.floor_add_int]
      norm_num
    unfold roundHalfEven
    rw [hfl]
    have harith : ((k : ℚ) + 1/2) - (k : ℚ) = 1/2 := by ring
    rw [harith]
    rw [if_neg (lt_irrefl ((1:ℚ)/2)), if_neg (lt_irrefl ((1:ℚ)/2))]
    by_cases hk : k % 2 = 0
    · rw [if_pos hk]; omega
    · rw [if_neg hk]; omega

/-- C4 witness at step 50 and price 24. -/
theorem computeLevel_int_step_witness :
    (0:ℤ) < 50 ∧ (0:ℚ) < 24 ∧
    (computeLevel ((50:ℤ) : ℚ) 24 = roundHalfEven (24 / ((50:ℤ) : ℚ)) * 50
     ∧ ∀ k : ℤ, roundHalfEven ((k : ℚ) + 1/2) % 2 = 0) :=
  ⟨by decide, by decide, computeLevel_int_step 50 24 (by decide) (by decide)⟩

/-- C9: levels are truncated to integers by `int()`; hence (a) the stored
level is the truncation toward zero of the grid value, (b) with the
non-integer step 3/5 the stored level 1 (from price 13/10) is not an
integer multiple of the step, and (c) with step 1/2 the distinct grid
values 0 and 1/2 (prices 1/10 and 7/10) truncate to the same stored
integer 0, so the duplicate-suppression comparison cannot tell them apart
and the second price produces no alert. -/
theorem int_truncation_semantics :
    (∀ step p : ℚ, computeLevel step p = ratTruncZ (gridValue step p))
    ∧ (¬ ∃ m : ℤ, (computeLevel (3/5) (13/10) : ℚ) = (m : ℚ) * (3/5))
    ∧ (gridValue (1/2) (1/10) ≠ gridValue (1/2) (7/10)
       ∧ computeLevel (1/2) (1/10) = computeLevel (1/2) (7/10)
       ∧ (process_tick (1/2) (process_tick (1/2) [] "X" (1/10)).1 "X"
            (7/10)).2 = Option.none) := by
  refine ⟨fun step p => rfl, ?_, by decide⟩
  rintro ⟨m, hm⟩
  have hc : computeLevel (3/5) (13/10) = 1 := by decide
  rw [hc] at hm
  push_cast at hm
  have h5 : (5 : ℚ) = (m : ℚ) * 3 := by linarith
  have h5z : (5 : ℤ) = m * 3 := by exact_mod_cast h5
  omega

/-- C2 counterexample: the `try` of `main_bot` wraps the whole per-symbol
`for` loop, so symbol "A"'s malformed depth entry (whose `.get` raises)
abandons the cycle before symbol "B" is reached — "B" is neither evaluated
nor stored, even though processing "B" alone would emit level 100. -/
theorem bad_symbol_blocks_rest :
    runCycle 50
      [("A", ⟨true, some (PriceVal.pnum 10), Option.none, [Entry.bad]⟩),
       ("B", ⟨true, some (PriceVal.pnum 76), Option.none, []⟩)]
      [] ["A", "B"]
      = ⟨[], [], true⟩
    ∧ runCycle 50
      [("A", ⟨true, some (PriceVal.pnum 10), Option.none, [Entry.bad]⟩),
       ("B", ⟨true, some (PriceVal.pnum 76), Option.none, []⟩)]
      [] ["B"]
      = ⟨[("B", 100)], [("B", 100)], false⟩ := by decide

/-- C2 amended: failure isolation is at per-cycle granularity, not
per-symbol: an exception while processing one symbol abandons the
remaining symbols of that cycle, but the cycle function still returns
(state mutations made before the failure are kept, and the loop proceeds
to the next cycle rather than crashing). -/
theorem cycle_granularity_isolation (step : ℚ) (qm : List (String × Quote))
    (st : TrackerState) (k : String) (ks : List String)
    (he : handleQuote step st k (qget qm k) = Except.error ()) :
    runCycle step qm st (k :: ks) = ⟨st, [], true⟩ := by
  unfold runCycle
  rw [he]

/-- C2 witness: a price field whose `float()` conversion raises aborts the
cycle at symbol "A", leaving the state intact. -/
theorem cycle_granularity_isolation_witness :
    handleQuote 50 [] "A"
      (qget [("A", ⟨true, some PriceVal.bad, Option.none, []⟩)] "A")
      = Except.error ()
    ∧ runCycle 50 [("A", ⟨true, some PriceVal.bad, Option.none, []⟩)] []
        ["A", "B"] = ⟨[], [], true⟩ :=
  ⟨rfl,
   cycle_granularity_isolation 50
     [("A", ⟨true, some PriceVal.bad, Option.none, []⟩)] [] "A" ["B"]
     rfl⟩

/-- C3 counterexample: two consecutive unauthorized (HTTP 401) cycles hand
the invalid-token alert to the Notifier twice — once per occurrence, not
exactly once overall. -/
theorem unauthorized_alert_not_once :
    tokenAlertCount (some "token")
      [HttpOutcome.resp 401 RespBody.badJson,
       HttpOutcome.resp 401 RespBody.badJson] = 2
    ∧ tokenAlertCount (some "token")
      [HttpOutcome.resp 401 RespBody.badJson,
       HttpOutcome.resp 401 RespBody.badJson] ≠ 1 := by decide

/-- C3 amended: on every HTTP 401 response, `fetch_quotes` returns the
empty mapping (so the cycle proceeds without crashing) and hands the
invalid-credential alert to the Notifier on that occurrence — i.e. once
per unauthorized cycle, repeated across unauthorized cycles. -/
theorem unauthorized_returns_empty_and_alerts (token : Option String)
    (body : RespBody) (ht : truthyStr token = true) :
    fetch_quotes token (HttpOutcome.resp 401 body) = ⟨[], true, true⟩ := by
  unfold fetch_quotes
  rw [ht]
  simp

/-- C3 witness at a configured token. -/
theorem unauthorized_returns_empty_and_alerts_witness :
    truthyStr (some "token") = true
    ∧ fetch_quotes (some "token") (HttpOutcome.resp 401 RespBody.badJson)
        = ⟨[], true, true⟩ :=
  ⟨by decide,
   unauthorized_returns_empty_and_alerts (some "token") RespBody.badJson
     (by decide)⟩

/-- C8: absent credentials degrade gracefully — with no access token,
`fetch_quotes` returns the empty mapping without issuing any HTTP request;
with the bot token or chat id unset, `send_telegram` is a logged no-op
that returns normally. -/
theorem missing_credentials_degrade (net : HttpOutcome)
    (bt ct : Option String) (m : String) (pr : Bool)
    (h : truthyStr bt = false ∨ truthyStr ct = false) :
    fetch_quotes Option.none net = ⟨[], false, false⟩
    ∧ send_telegram bt ct m pr = SendOutcome.skipped := by
  constructor
  · rfl
  · unfold send_telegram
    rw [if_pos h]

/-- C8 witness: unset bot token, configured chat id. -/
theorem missing_credentials_degrade_witness :
    (truthyStr Option.none = false ∨ truthyStr (some "chat") = false)
    ∧ (fetch_quotes Option.none HttpOutcome.exn = ⟨[], false, false⟩
       ∧ send_telegram Option.none (some "chat") "hello" false
           = SendOutcome.skipped) :=
  ⟨Or.inl (by decide),
   missing_credentials_degrade HttpOutcome.exn Option.none (some "chat")
     "hello" false (Or.inl (by decide))⟩

/-- C10 counterexample: a quote whose `last_price` is the falsy number 0
and whose `ltp` field is also 0 is NOT silently skipped: the `or` fallback
yields 0, which passes the `is not None` guard, so the symbol is evaluated
at price 0.0 (and here even emits level 0). -/
theorem falsy_fallback_evaluated :
    handleQuote 50 [] "K"
      (some ⟨true, some (PriceVal.pnum 0), some (PriceVal.pnum 0), []⟩)
      = Except.ok ([("K", 0)], some 0) := by rfl

/-- C10 amended: a present-but-falsy `last_price` (0/0.0) falls through to
the `ltp` field exactly like a missing one, and an entirely falsy (empty
dict) quote is skipped; but the final guard is `is not None`, so the
symbol is skipped only when the extracted value is `None` (both fields
absent/`None`): a falsy non-`None` fallback value such as 0 passes the
guard and the symbol is evaluated at that price. -/
theorem falsy_price_fallthrough (step : ℚ) (st : TrackerState)
    (k : String) :
    (∀ b : Option PriceVal,
       pyOr (some (PriceVal.pnum 0)) b = b ∧ pyOr Option.none b = b)
    ∧ (∀ q : Quote, q.truthy = false →
        handleQuote step st k (some q) = Except.ok (st, Option.none))
    ∧ handleQuote step st k Option.none = Except.ok (st, Option.none)
    ∧ (∀ q : Quote, ∀ v : ℚ, q.truthy = true →
        sumQuantities q.buy = Except.ok v →
        pyOr q.last_price q.ltp = Option.none →
        handleQuote step st k (some q) = Except.ok (st, Option.none))
    ∧ (∀ q : Quote, ∀ v c : ℚ, q.truthy = true →
        sumQuantities q.buy = Except.ok v →
        pyOr q.last_price q.ltp = some (PriceVal.pnum c) →
        handleQuote step st k (some q)
          = Except.ok (process_tick step st k c)) := by
  refine ⟨?_, ?_, rfl, ?_, ?_⟩
  · intro b
    constructor
    · simp [pyOr, truthyPrice]
    · simp [pyOr, truthyPrice]
  · intro q hq
    simp [handleQuote, hq]
  · intro q v hq hsum hor
    simp [handleQuote, hq, hsum, hor]
  · intro q v c hq hsum hor
    simp [handleQuote, hq, hsum, hor, floatOf]

/-- C10 amended witness: a quote with falsy `last_price` 0 and numeric
`ltp` 5 is evaluated at price 5. -/
theorem falsy_price_fallthrough_witness :
    Quote.truthy ⟨true, some (PriceVal.pnum 0), some (PriceVal.pnum 5), []⟩
        = true
    ∧ sumQuantities
        (Quote.buy ⟨true, some (PriceVal.pnum 0), some (PriceVal.pnum 5), []⟩)
        = Except.ok 0
    ∧ handleQuote 50 [] "K"
        (some ⟨true, some (PriceVal.pnum 0), some (PriceVal.pnum 5), []⟩)
        = Except.ok (process_tick 50 [] "K" 5) :=
  ⟨rfl, rfl,
   (falsy_price_fallthrough 50 [] "K").2.2.2.2
     ⟨true, some (PriceVal.pnum 0), some (PriceVal.pnum 5), []⟩ 0 5 rfl
     rfl rfl⟩

end UpstoxBot
